import Mathlib

/-!
Shallow embedding of the Gemini service layer of the Mova-ai4 repository
(`src/services/gemini.ts`, full version with fallback/retry orchestration).

Backends are modelled as oracles `Nat → Call`, giving the outcome of the
i-th backend call of an operation; each operation returns the list of
observable events (backend calls issued and delays awaited) together with
its terminal outcome (a returned value or a raised classified error).
-/

namespace Mova

/-- JS `String.prototype.includes`: substring containment. -/
def includes (s pat : String) : Bool := decide (pat.data <:+: s.data)

/-- The `code` field of a thrown `GeminiError`. -/
inductive ErrorCode
  | AUTH_ERROR
  | SAFETY_ERROR
  | RATE_LIMIT
  | NETWORK_ERROR
  | EMPTY_RESPONSE
  | NO_CANDIDATES
  | UNKNOWN_ERROR
  deriving DecidableEq, Repr

/-- A classified error as surfaced to the caller (`class GeminiError`). -/
structure GeminiError where
  message : String
  code : ErrorCode
  deriving DecidableEq, Repr

/-- A caught JS error value, as inspected by the catch blocks:
`message` is `none` when `error.message` is undefined; `status` is the
numeric value of `error.status || error.code` when that value is a number
(internal `GeminiError`s carry a string code, hence `status = none`). -/
structure JsError where
  message : Option String
  status : Option Nat
  deriving DecidableEq, Repr

/-- `handleGeminiError` (part_001 lines 304-327): classifies a raw failure.
The source always throws; here it returns the `GeminiError` it throws. -/
def handleGeminiError (error : JsError) : GeminiError :=
  let message := error.message.getD "An unexpected error occurred"
  if includes message "API_KEY_INVALID" || includes message "API key not valid" then
    ⟨"The provided API key is invalid. Please check your configuration.", .AUTH_ERROR⟩
  else if includes message "SAFETY" || includes message "blocked" then
    ⟨"The request was blocked by safety filters. Please try a different prompt.", .SAFETY_ERROR⟩
  else if error.status == some 429 || includes message "quota" then
    ⟨"Rate limit exceeded. The system is currently busy. Please wait about 30-60 seconds before trying again.", .RATE_LIMIT⟩
  else if includes message "network" || includes message "fetch" then
    ⟨"Network error. Please check your internet connection.", .NETWORK_ERROR⟩
  else
    ⟨message, .UNKNOWN_ERROR⟩

/-- The loose rate-limit pre-check used by the chat / analyze / edit catch blocks:
`errMsg.includes("429") || errMsg.includes("quota") || errMsg.includes("Rate limit")`
on `errMsg = error.message || ""`. -/
def isRateLimitLoose (error : JsError) : Bool :=
  let errMsg := error.message.getD ""
  includes errMsg "429" || includes errMsg "quota" || includes errMsg "Rate limit"

/-- An observable step: a backend call against a named model, or an awaited delay. -/
inductive Event
  | call (model : String)
  | wait (ms : Nat)
  deriving DecidableEq, Repr

/-- Outcome of one text-returning backend call: a response whose `.text`
field may be absent (`none`) or any string, or a thrown raw error. -/
inductive ChatCall
  | success (text : Option String)
  | failure (error : JsError)

/-- JS falsiness of `response.text` (undefined or empty). -/
def textFalsy : Option String → Bool
  | none => true
  | some s => s == ""

/-- The plain `Error("GEMINI_API_KEY is not set")` thrown by `getGeminiModel`
when the credential is absent, as seen by a catch block. -/
def missingKeyError : JsError := ⟨some "GEMINI_API_KEY is not set", none⟩

/-- Stands for the `null` initial `lastError`; only ever consulted on the
(provably dead) fall-through path after the candidate loop. -/
def nullError : JsError := ⟨none, none⟩

/-- Result of the candidate-fallback loop body of `chatWithGemini` / `analyzeImage`:
a returned text, a raised classified error, or the loop running out of
candidates and falling through to the trailing `handleGeminiError(lastError)`. -/
inductive LoopResult
  | ok (text : String)
  | err (e : GeminiError)
  | fellThrough (lastError : Option JsError)
  deriving DecidableEq, Repr

/-- The `for (let i = 0; i < models.length; i++)` candidate loop shared
verbatim (up to model list and empty-response message) by `chatWithGemini`
(part_001 lines 331-365) and `analyzeImage` (part_001 lines 471-514):
each iteration runs `getGeminiModel()`, issues the call, throws an
`EMPTY_RESPONSE` `GeminiError` on a falsy `response.text`, and in the catch
records `lastError`, raises via `handleGeminiError` on a non-rate-limit
failure or on the last candidate, and otherwise waits 1000 ms and moves on. -/
def modelFallbackLoop (hasKey : Bool) (backend : Nat → ChatCall) (emptyMsg : String) :
    List String → Nat → Option JsError → List Event × LoopResult
  | [], _, lastError => ([], .fellThrough lastError)
  | model :: rest, i, _ =>
    let step : List Event × Except JsError String :=
      if hasKey then
        match backend i with
        | .success t =>
          if textFalsy t then ([.call model], .error ⟨some emptyMsg, none⟩)
          else ([.call model], .ok (t.getD ""))
        | .failure e => ([.call model], .error e)
      else ([], .error missingKeyError)
    match step with
    | (evs, .ok text) => (evs, .ok text)
    | (evs, .error caught) =>
      if !isRateLimitLoose caught || rest.isEmpty then
        (evs, .err (handleGeminiError caught))
      else
        let r := modelFallbackLoop hasKey backend emptyMsg rest (i + 1) (some caught)
        (evs ++ .wait 1000 :: r.1, r.2)

/-- Terminal outcome of a text operation. -/
inductive ChatOutcome
  | ok (text : String)
  | err (e : GeminiError)
  deriving DecidableEq, Repr

/-- The trailing `handleGeminiError(lastError)` after the loop (dead code,
see the no-fall-through theorem; the JS `null` case is modelled loosely). -/
def outcomeOf : LoopResult → ChatOutcome
  | .ok t => .ok t
  | .err e => .err e
  | .fellThrough le => .err (handleGeminiError (le.getD nullError))

/-- Chat candidate model list (part_001 line 332). -/
def chatModels : List String :=
  ["gemini-3.1-pro-preview", "gemini-3-flash-preview", "gemini-flash-lite-latest"]

/-- Analyze candidate model list (part_001 line 472). -/
def analyzeModels : List String := ["gemini-3-flash-preview", "gemini-2.5-flash-image"]

/-- `chatWithGemini` (part_001 lines 331-365). -/
def chatWithGemini (hasKey : Bool) (backend : Nat → ChatCall) : List Event × ChatOutcome :=
  let r := modelFallbackLoop hasKey backend "The model returned an empty response." chatModels 0 none
  (r.1, outcomeOf r.2)

/-- `analyzeImage` (part_001 lines 471-514). -/
def analyzeImage (hasKey : Bool) (backend : Nat → ChatCall) : List Event × ChatOutcome :=
  let r := modelFallbackLoop hasKey backend "The model returned an empty analysis." analyzeModels 0 none
  (r.1, outcomeOf r.2)

/-- One response content part: `inlineData = some d` models a present
`part.inlineData` object with `data = d`; `text` is the optional text field. -/
structure Part where
  inlineData : Option String
  text : Option String
  deriving DecidableEq, Repr

/-- One result candidate; `parts` models `candidate.content.parts || []`. -/
structure Candidate where
  parts : List Part
  deriving DecidableEq, Repr

/-- An image-operation response; `candidates` models `response.candidates || []`. -/
structure ImgResponse where
  candidates : List Candidate
  deriving DecidableEq, Repr

/-- Outcome of one image-operation backend call. -/
inductive ImgCall
  | success (resp : ImgResponse)
  | failure (error : JsError)

/-- The part-scanning loop of `editImage` / `generateImage`
(part_001 lines 401-407 and 447-453): `if (part.inlineData)` captures the
image (overwriting), `else if (part.text)` appends the text. Returns
(final image, concatenated text). -/
def scanStep (acc : Option String × String) (part : Part) : Option String × String :=
  match part.inlineData with
  | some d => (some d, acc.2)
  | none =>
    match part.text with
    | some t => if t == "" then acc else (acc.1, acc.2 ++ t)
    | none => acc

/-- Folds `scanStep` over the parts starting from (no image, empty text). -/
def scanParts (ps : List Part) : Option String × String :=
  ps.foldl scanStep (none, "")

/-- The internal `GeminiError("No image was generated. The request might have been blocked.", "NO_CANDIDATES")`
as seen by a catch block (its string code is not a numeric status). -/
def noCandidatesError : JsError :=
  ⟨some "No image was generated. The request might have been blocked.", none⟩

/-- Terminal outcome of an image operation; `fellThrough` models the
`editImage` while-loop exiting with no return (the function would return
undefined) — provably dead. -/
inductive ImgOutcome
  | ok (image : Option String) (text : String)
  | err (e : GeminiError)
  | fellThrough
  deriving DecidableEq, Repr

/-- The single fixed model of `editImage` and `generateImage`. -/
def imageModel : String := "gemini-2.5-flash-image"

/-- The `while (attempts < maxAttempts)` loop of `editImage`
(part_001 lines 415-469), with `fuel = maxAttempts - attempts`; the catch
increments `attempts`, retries after a 2000 ms delay on a loose rate-limit
failure with attempts remaining, and otherwise raises via `handleGeminiError`. -/
def editImageLoop (hasKey : Bool) (backend : Nat → ImgCall) :
    Nat → Nat → List Event × ImgOutcome
  | _, 0 => ([], .fellThrough)
  | i, fuel + 1 =>
    let step : List Event × Except JsError (Option String × String) :=
      if hasKey then
        match backend i with
        | .success resp =>
          match resp.candidates with
          | [] => ([.call imageModel], .error noCandidatesError)
          | c :: _ => ([.call imageModel], .ok (scanParts c.parts))
        | .failure e => ([.call imageModel], .error e)
      else ([], .error missingKeyError)
    match step with
    | (evs, .ok r) => (evs, .ok r.1 r.2)
    | (evs, .error caught) =>
      if isRateLimitLoose caught && fuel > 0 then
        let r := editImageLoop hasKey backend (i + 1) fuel
        (evs ++ .wait 2000 :: r.1, r.2)
      else (evs, .err (handleGeminiError caught))

/-- `editImage` (part_001 lines 415-469): `attempts = 0`, `maxAttempts = 2`. -/
def editImage (hasKey : Bool) (backend : Nat → ImgCall) : List Event × ImgOutcome :=
  editImageLoop hasKey backend 0 2

/-- The rate-limit predicate of `generateImageWithRetry` (part_001 line 377):
`error.status === 429 || (error.message && (error.message.includes("429") ||
error.message.includes("quota") || error.message.includes("Rate limit")))`. -/
def isRateLimitGen (error : JsError) : Bool :=
  error.status == some 429 ||
    (match error.message with
     | none => false
     | some m => !(m == "") && (includes m "429" || includes m "quota" || includes m "Rate limit"))

/-- Result of `generateImageWithRetry`: the response, or the rethrown raw error. -/
inductive GenRetryResult
  | success (resp : ImgResponse)
  | thrown (error : JsError)
  deriving Repr

/-- `generateImageWithRetry` (part_001 lines 367-386): self-recursive; on a
rate-limit failure with `retries > 0` it waits `(6 - retries) * 2000` ms and
recurses with `retries - 1`; any other failure (or exhaustion) is rethrown. -/
def generateImageWithRetry (backend : Nat → ImgCall) (modelName : String) :
    Nat → Nat → List Event × GenRetryResult
  | i, 0 =>
    match backend i with
    | .success resp => ([.call modelName], .success resp)
    | .failure e => ([.call modelName], .thrown e)
  | i, r + 1 =>
    match backend i with
    | .success resp => ([.call modelName], .success resp)
    | .failure e =>
      if isRateLimitGen e then
        let delayTime := (6 - (r + 1)) * 2000
        let rec' := generateImageWithRetry backend modelName (i + 1) r
        (.call modelName :: .wait delayTime :: rec'.1, rec'.2)
      else ([.call modelName], .thrown e)

/-- `generateImage` (part_001 lines 388-413): key check, then
`generateImageWithRetry(ai, "gemini-2.5-flash-image", prompt)` with the
default `retries = 5`; a zero-candidate response throws the internal
`NO_CANDIDATES` error; every caught error goes through `handleGeminiError`. -/
def generateImage (hasKey : Bool) (backend : Nat → ImgCall) : List Event × ImgOutcome :=
  if hasKey then
    match generateImageWithRetry backend imageModel 0 5 with
    | (evs, .success resp) =>
      match resp.candidates with
      | [] => (evs, .err (handleGeminiError noCandidatesError))
      | c :: _ => (evs, .ok (scanParts c.parts).1 (scanParts c.parts).2)
    | (evs, .thrown e) => (evs, .err (handleGeminiError e))
  else ([], .err (handleGeminiError missingKeyError))

/-- Number of backend calls in an event trace. -/
def countCalls (evs : List Event) : Nat :=
  evs.countP fun e => match e with | .call _ => true | .wait _ => false

end Mova

namespace Mova

/-! ## Spec-side definitions (worded from the specification) -/

/-- The message inspected by the classifier: `error.message || "An unexpected error occurred"`. -/
def fullMessage (e : JsError) : String := e.message.getD "An unexpected error occurred"

/-- Spec step 1: the message mentions an invalid / invalid-format API key marker. -/
def authMarker (m : String) : Bool :=
  includes m "API_KEY_INVALID" || includes m "API key not valid"

/-- Spec step 2: the message mentions safety / blocked markers. -/
def safetyMarker (m : String) : Bool := includes m "SAFETY" || includes m "blocked"

/-- Spec step 3: the status equals 429 or the message mentions quota. -/
def rateLimitCond (e : JsError) : Bool :=
  e.status == some 429 || includes (fullMessage e) "quota"

/-- Spec step 4: the message mentions network / fetch markers. -/
def networkMarker (m : String) : Bool := includes m "network" || includes m "fetch"

/-- One chat attempt as the claim words it: a successful call with text
returns that text; a blank response is treated as an empty-response failure;
a failed call yields its raw error. -/
def chatAttempt (backend : Nat → ChatCall) (emptyMsg : String) (i : Nat) :
    Except JsError String :=
  match backend i with
  | .success t => if textFalsy t then .error ⟨some emptyMsg, none⟩ else .ok (t.getD "")
  | .failure e => .error e

/-- The claimed fallback policy, worded from the spec: try the candidates in
order, one call per attempt; on success return that text and stop; on a
failure of the last candidate, or a failure the loose rate-limit check
rejects, classify and raise immediately; otherwise wait the flat 1000 ms
inter-model delay and retry with the next candidate. -/
def claimedFallback (backend : Nat → ChatCall) (emptyMsg : String) :
    List String → Nat → List Event × ChatOutcome
  | [], _ => ([], .err (handleGeminiError nullError))
  | [model], i =>
    match chatAttempt backend emptyMsg i with
    | .ok t => ([.call model], .ok t)
    | .error e => ([.call model], .err (handleGeminiError e))
  | model :: next :: rest, i =>
    match chatAttempt backend emptyMsg i with
    | .ok t => ([.call model], .ok t)
    | .error e =>
      if isRateLimitLoose e then
        let r := claimedFallback backend emptyMsg (next :: rest) (i + 1)
        (.call model :: .wait 1000 :: r.1, r.2)
      else ([.call model], .err (handleGeminiError e))

/-! ## Helper lemmas -/

theorem fallback_eq_claimed (backend : Nat → ChatCall) (emptyMsg : String) :
    ∀ models, models ≠ [] → ∀ i le,
      ((modelFallbackLoop true backend emptyMsg models i le).1,
        outcomeOf (modelFallbackLoop true backend emptyMsg models i le).2) =
        claimedFallback backend emptyMsg models i := by
  intro models
  induction models with
  | nil => intro h; exact absurd rfl h
  | cons m rest ih =>
    intro _ i le
    cases rest with
    | nil =>
      cases hb : backend i with
      | success t =>
        cases ht : textFalsy t
        · simp [modelFallbackLoop, claimedFallback, chatAttempt, hb, ht, outcomeOf]
        · simp [modelFallbackLoop, claimedFallback, chatAttempt, hb, ht, outcomeOf]
      | failure e =>
        simp [modelFallbackLoop, claimedFallback, chatAttempt, hb, outcomeOf]
    | cons m2 rest2 =>
      cases hb : backend i with
      | success t =>
        cases ht : textFalsy t
        · simp [modelFallbackLoop, claimedFallback, chatAttempt, hb, ht, outcomeOf]
        · cases hrl : isRateLimitLoose ⟨some emptyMsg, none⟩
          · simp [modelFallbackLoop, claimedFallback, chatAttempt, hb, ht, hrl, outcomeOf]
          · rcases hq : modelFallbackLoop true backend emptyMsg (m2 :: rest2) (i + 1)
                (some ⟨some emptyMsg, none⟩) with ⟨evs2, res2⟩
            have h2 := ih (by simp) (i + 1) (some ⟨some emptyMsg, none⟩)
            rw [hq] at h2
            rw [modelFallbackLoop]
            simp [hb, ht, hrl, hq, claimedFallback, chatAttempt, outcomeOf]
            exact ⟨by rw [← h2], by rw [← h2]; cases res2 <;> rfl⟩
      | failure e =>
        cases hrl : isRateLimitLoose e
        · simp [modelFallbackLoop, claimedFallback, chatAttempt, hb, hrl, outcomeOf]
        · rcases hq : modelFallbackLoop true backend emptyMsg (m2 :: rest2) (i + 1)
              (some e) with ⟨evs2, res2⟩
          have h2 := ih (by simp) (i + 1) (some e)
          rw [hq] at h2
          rw [modelFallbackLoop]
          simp [hb, hrl, hq, claimedFallback, chatAttempt, outcomeOf]
          exact ⟨by rw [← h2], by rw [← h2]; cases res2 <;> rfl⟩

/-! ## Claim theorems -/

/-- C1: for every sequence of backend outcomes, `chatWithGemini` implements
exactly the claimed fallback policy over the fixed candidate list: one call
per attempt in order; classify and raise immediately on a non-rate-limit
failure or on any failure of the last candidate; wait the flat 1000 ms and
move to the next candidate on a rate-limit failure with candidates
remaining; return the call text and stop on the first success.  In
particular two rate-limit failures followed by a success issue exactly three
calls with one flat delay between each and return the third call text. -/
theorem chat_fallback_policy :
    (∀ backend, chatWithGemini true backend =
      claimedFallback backend "The model returned an empty response." chatModels 0) ∧
    (∀ backend e1 e2 s,
      isRateLimitLoose e1 = true → isRateLimitLoose e2 = true →
      backend 0 = .failure e1 → backend 1 = .failure e2 →
      backend 2 = .success (some s) → textFalsy (some s) = false →
      chatWithGemini true backend =
        ([.call "gemini-3.1-pro-preview", .wait 1000,
          .call "gemini-3-flash-preview", .wait 1000,
          .call "gemini-flash-lite-latest"], .ok s)) := by
  have base : ∀ backend, chatWithGemini true backend =
      claimedFallback backend "The model returned an empty response." chatModels 0 := by
    intro backend
    exact fallback_eq_claimed backend "The model returned an empty response."
      chatModels (by simp [chatModels]) 0 none
  refine ⟨base, ?_⟩
  intro backend e1 e2 s h1 h2 hb0 hb1 hb2 hs
  rw [base backend]
  simp [claimedFallback, chatAttempt, chatModels, hb0, hb1, hb2, h1, h2, hs]

/-- C1 witness: a concrete backend failing the first two candidates with
rate-limit messages and succeeding on the third issues exactly three calls
with one flat delay between each and returns the third call text. -/
theorem chat_fallback_policy_witness :
    chatWithGemini true
        (fun i => if i = 0 then .failure ⟨some "429", none⟩
          else if i = 1 then .failure ⟨some "quota", none⟩
          else .success (some "hello")) =
      ([.call "gemini-3.1-pro-preview", .wait 1000,
        .call "gemini-3-flash-preview", .wait 1000,
        .call "gemini-flash-lite-latest"], .ok "hello") :=
  chat_fallback_policy.2
    (fun i => if i = 0 then .failure ⟨some "429", none⟩
      else if i = 1 then .failure ⟨some "quota", none⟩
      else .success (some "hello"))
    ⟨some "429", none⟩ ⟨some "quota", none⟩ "hello"
    (by decide) (by decide) rfl rfl rfl (by decide)

/-- C2: the classification yields exactly one kind, decided in priority
order: an invalid-API-key marker gives AUTH_ERROR; else a safety/blocked
marker gives SAFETY_ERROR; else status 429 or a quota mention gives
RATE_LIMIT; else a network/fetch marker gives NETWORK_ERROR; else
UNKNOWN_ERROR carrying the original message. -/
theorem classification_priority (e : JsError) :
    (((handleGeminiError e).code = .AUTH_ERROR) ↔ authMarker (fullMessage e) = true) ∧
    (((handleGeminiError e).code = .SAFETY_ERROR) ↔
      (authMarker (fullMessage e) = false ∧ safetyMarker (fullMessage e) = true)) ∧
    (((handleGeminiError e).code = .RATE_LIMIT) ↔
      (authMarker (fullMessage e) = false ∧ safetyMarker (fullMessage e) = false ∧
        rateLimitCond e = true)) ∧
    (((handleGeminiError e).code = .NETWORK_ERROR) ↔
      (authMarker (fullMessage e) = false ∧ safetyMarker (fullMessage e) = false ∧
        rateLimitCond e = false ∧ networkMarker (fullMessage e) = true)) ∧
    (((handleGeminiError e).code = .UNKNOWN_ERROR) ↔
      (authMarker (fullMessage e) = false ∧ safetyMarker (fullMessage e) = false ∧
        rateLimitCond e = false ∧ networkMarker (fullMessage e) = false)) ∧
    ((handleGeminiError e).code = .UNKNOWN_ERROR →
      (handleGeminiError e).message = fullMessage e) := by
  cases ha : authMarker (fullMessage e) <;>
    cases hs : safetyMarker (fullMessage e) <;>
      cases hr : rateLimitCond e <;>
        cases hn : networkMarker (fullMessage e) <;>
          simp_all [handleGeminiError, authMarker, safetyMarker, rateLimitCond,
            networkMarker, fullMessage]

/-- The loose pre-check rejects the missing-credential error message. -/
theorem isRL_missingKey : isRateLimitLoose missingKeyError = false := by decide

/-- The loose pre-check rejects the internal no-candidates error message. -/
theorem isRL_noCand : isRateLimitLoose noCandidatesError = false := by decide

/-- Classifying the missing-credential error yields UNKNOWN_ERROR with the
original message (no marker matches). -/
theorem handle_missingKey :
    handleGeminiError missingKeyError = ⟨"GEMINI_API_KEY is not set", .UNKNOWN_ERROR⟩ := by
  decide

/-- Classifying the internal no-candidates error yields SAFETY_ERROR
(its message mentions "blocked"). -/
theorem handle_noCand :
    handleGeminiError noCandidatesError =
      ⟨"The request was blocked by safety filters. Please try a different prompt.",
        .SAFETY_ERROR⟩ := by
  decide

/-- The chat empty-response error is loose-rejected and classifies UNKNOWN_ERROR. -/
theorem emptyResponse_classification :
    isRateLimitLoose ⟨some "The model returned an empty response.", none⟩ = false ∧
    handleGeminiError ⟨some "The model returned an empty response.", none⟩ =
      ⟨"The model returned an empty response.", .UNKNOWN_ERROR⟩ := by
  decide

theorem genRetry_success (b : Nat → ImgCall) (m : String) (resp : ImgResponse) :
    ∀ r i, b i = .success resp →
      generateImageWithRetry b m i r = ([.call m], .success resp) := by
  intro r
  cases r <;> intro i hb <;> simp [generateImageWithRetry, hb]

theorem genRetry_fail_noRL (b : Nat → ImgCall) (m : String) (e : JsError) :
    ∀ r i, b i = .failure e → isRateLimitGen e = false →
      generateImageWithRetry b m i r = ([.call m], .thrown e) := by
  intro r
  cases r <;> intro i hb hrl <;> simp [generateImageWithRetry, hb, hrl]

theorem genRetry_fail_RL (b : Nat → ImgCall) (m : String) (e : JsError)
    (r i : Nat) (hb : b i = .failure e) (hrl : isRateLimitGen e = true) :
    generateImageWithRetry b m i (r + 1) =
      (.call m :: .wait ((6 - (r + 1)) * 2000) :: (generateImageWithRetry b m (i + 1) r).1,
        (generateImageWithRetry b m (i + 1) r).2) := by
  simp [generateImageWithRetry, hb, hrl]

theorem genRetry_calls_le (b : Nat → ImgCall) (m : String) :
    ∀ r i, countCalls (generateImageWithRetry b m i r).1 ≤ r + 1 := by
  intro r
  induction r with
  | zero =>
    intro i
    cases hb : b i <;> simp [generateImageWithRetry, hb, countCalls]
  | succ r ih =>
    intro i
    cases hb : b i with
    | success resp => simp [generateImageWithRetry, hb, countCalls]
    | failure e =>
      cases hrl : isRateLimitGen e
      · simp [generateImageWithRetry, hb, hrl, countCalls]
      · rw [genRetry_fail_RL b m e r i hb hrl]
        have := ih (i + 1)
        simp [countCalls, List.countP_cons] at this ⊢
        omega

theorem join_concat (l : List String) (s : String) :
    String.join (l ++ [s]) = String.join l ++ s := by
  simp [String.join, List.foldl_append]

theorem scanParts_concat (l : List Part) (p : Part) :
    scanParts (l ++ [p]) = scanStep (scanParts l) p := by
  simp [scanParts, List.foldl_append]

theorem scanParts_spec (ps : List Part) :
    scanParts ps = ((ps.filterMap Part.inlineData).getLast?,
      String.join (ps.filterMap fun p => if p.inlineData.isSome then none else p.text)) := by
  induction ps using List.reverseRecOn with
  | nil => simp [scanParts, String.join]
  | append_singleton l p ih =>
    rw [scanParts_concat, ih]
    rcases hp : p.inlineData with _ | d
    · rcases hpt : p.text with _ | t
      · simp [scanStep, hp, hpt, List.filterMap_append, join_concat]
      · by_cases ht : t = ""
        · subst ht
          simp [scanStep, hp, hpt, List.filterMap_append, join_concat]
        · have ht2 : (t == "") = false := by
            cases hq : t == ""
            · rfl
            · exact absurd (eq_of_beq hq) ht
          simp [scanStep, hp, hpt, ht2, List.filterMap_append, join_concat]
    · simp [scanStep, hp, List.filterMap_append, join_concat]

theorem loop_no_fellThrough (hk : Bool) (b : Nat → ChatCall) (msg : String) :
    ∀ models, models ≠ [] → ∀ i le0 le,
      (modelFallbackLoop hk b msg models i le0).2 ≠ LoopResult.fellThrough le := by
  intro models
  induction models with
  | nil => intro h; exact absurd rfl h
  | cons m rest ih =>
    intro _ i le0 le
    cases rest with
    | nil =>
      cases hk
      · simp [modelFallbackLoop]
      · cases hb : b i with
        | success t => cases ht : textFalsy t <;> simp [modelFallbackLoop, hb, ht]
        | failure e => simp [modelFallbackLoop, hb]
    | cons m2 rest2 =>
      cases hk
      · simp [modelFallbackLoop, isRL_missingKey]
      · cases hb : b i with
        | success t =>
          cases ht : textFalsy t
          · simp [modelFallbackLoop, hb, ht]
          · cases hrl : isRateLimitLoose ⟨some msg, none⟩
            · simp [modelFallbackLoop, hb, ht, hrl]
            · rcases hq : modelFallbackLoop true b msg (m2 :: rest2) (i + 1)
                  (some ⟨some msg, none⟩) with ⟨evs2, res2⟩
              have hres := ih (by simp) (i + 1) (some ⟨some msg, none⟩) le
              rw [hq] at hres
              rw [modelFallbackLoop]
              simp [hb, ht, hrl, hq]
              exact hres
        | failure e =>
          cases hrl : isRateLimitLoose e
          · simp [modelFallbackLoop, hb, hrl]
          · rcases hq : modelFallbackLoop true b msg (m2 :: rest2) (i + 1)
                (some e) with ⟨evs2, res2⟩
            have hres := ih (by simp) (i + 1) (some e) le
            rw [hq] at hres
            rw [modelFallbackLoop]
            simp [hb, hrl, hq]
            exact hres

theorem editLoop_no_fellThrough (hk : Bool) (b : Nat → ImgCall) :
    ∀ f i, (editImageLoop hk b i (f + 1)).2 ≠ ImgOutcome.fellThrough := by
  intro f
  induction f with
  | zero =>
    intro i
    cases hk
    · simp [editImageLoop]
    · cases hb : b i with
      | success resp =>
        cases hc : resp.candidates with
        | nil => simp [editImageLoop, hb, hc, isRL_noCand]
        | cons c cs => simp [editImageLoop, hb, hc]
      | failure e => simp [editImageLoop, hb]
  | succ f ih =>
    intro i
    cases hk
    · simp [editImageLoop, isRL_missingKey]
    · cases hb : b i with
      | success resp =>
        cases hc : resp.candidates with
        | nil => simp [editImageLoop, hb, hc, isRL_noCand]
        | cons c cs => simp [editImageLoop, hb, hc]
      | failure e =>
        cases hrl : isRateLimitLoose e
        · simp [editImageLoop, hb, hrl]
        · rcases hq : editImageLoop true b (i + 1) (f + 1) with ⟨evs2, res2⟩
          have hres := ih (i + 1)
          rw [hq] at hres
          rw [editImageLoop]
          simp [hb, hrl, hq]
          exact hres

theorem gen_no_fellThrough (hk : Bool) (b : Nat → ImgCall) :
    (generateImage hk b).2 ≠ ImgOutcome.fellThrough := by
  cases hk
  · simp [generateImage]
  · rcases hg : generateImageWithRetry b imageModel 0 5 with ⟨evs, res⟩
    cases res with
    | success resp =>
      cases hc : resp.candidates with
      | nil => simp [generateImage, hg, hc]
      | cons c cs => simp [generateImage, hg, hc]
    | thrown e => simp [generateImage, hg]

/-- Trace of `generateImage` is exactly the trace of its retry helper. -/
theorem generateImage_events (b : Nat → ImgCall) :
    (generateImage true b).1 = (generateImageWithRetry b imageModel 0 5).1 := by
  rcases hg : generateImageWithRetry b imageModel 0 5 with ⟨evs, res⟩
  cases res with
  | success resp =>
    cases hc : resp.candidates with
    | nil => simp [generateImage, hg, hc]
    | cons c cs => simp [generateImage, hg, hc]
  | thrown e => simp [generateImage, hg]

/-- C3 counterexample: a backend failing every call with a rate-limit message
makes `generateImage` issue six calls, contradicting "at most five attempts
in total". -/
theorem gen_retry_attempts_cex :
    countCalls (generateImage true (fun _ => ImgCall.failure ⟨some "429", none⟩)).1 = 6 ∧
    ¬ countCalls (generateImage true (fun _ => ImgCall.failure ⟨some "429", none⟩)).1 ≤ 5 := by
  decide

/-- C3 amended: `generateImage` uses a single fixed model, retries only on
failures its rate-limit predicate accepts, makes at most six attempts in
total (the initial call plus up to five retries), and delays
`(6 - remainingRetries) * 2000` ms before each retry; four rate-limit
failures then a success on the fifth attempt give delays 2000, 4000, 6000,
8000 ms in that order. -/
theorem gen_retry_policy :
    (∀ b, countCalls (generateImage true b).1 ≤ 6) ∧
    (∀ (b : Nat → ImgCall) e, b 0 = ImgCall.failure e → isRateLimitGen e = false →
      generateImage true b = ([.call imageModel], .err (handleGeminiError e))) ∧
    (∀ (b : Nat → ImgCall) e resp, isRateLimitGen e = true →
      (∀ i, i < 4 → b i = ImgCall.failure e) → b 4 = ImgCall.success resp →
      (generateImage true b).1 =
        [.call imageModel, .wait 2000, .call imageModel, .wait 4000, .call imageModel,
          .wait 6000, .call imageModel, .wait 8000, .call imageModel]) := by
  refine ⟨?_, ?_, ?_⟩
  · intro b
    have h := genRetry_calls_le b imageModel 5 0
    rw [generateImage_events b]
    exact h
  · intro b e hb hrl
    simp [generateImage, genRetry_fail_noRL b imageModel e 5 0 hb hrl]
  · intro b e resp hrl hf hb4
    have h0 := hf 0 (by norm_num)
    have h1 := hf 1 (by norm_num)
    have h2 := hf 2 (by norm_num)
    have h3 := hf 3 (by norm_num)
    rw [generateImage_events b, genRetry_fail_RL b imageModel e 4 0 h0 hrl]
    norm_num
    rw [genRetry_fail_RL b imageModel e 3 1 h1 hrl]
    norm_num
    rw [genRetry_fail_RL b imageModel e 2 2 h2 hrl]
    norm_num
    rw [genRetry_fail_RL b imageModel e 1 3 h3 hrl]
    norm_num
    rw [genRetry_success b imageModel resp 1 4 hb4]

/-- C3 witness: the four-failures-then-success scenario at a concrete
backend, showing the 2000/4000/6000/8000 ms delays. -/
theorem gen_retry_policy_witness :
    (generateImage true (fun i => if i < 4 then ImgCall.failure ⟨some "quota", none⟩
        else ImgCall.success ⟨[]⟩)).1 =
      [.call imageModel, .wait 2000, .call imageModel, .wait 4000, .call imageModel,
        .wait 6000, .call imageModel, .wait 8000, .call imageModel] :=
  gen_retry_policy.2.2
    (fun i => if i < 4 then ImgCall.failure ⟨some "quota", none⟩ else ImgCall.success ⟨[]⟩)
    ⟨some "quota", none⟩ ⟨[]⟩ (by decide)
    (fun i hi => if_pos hi) (if_neg (by norm_num))

/-- C4: `editImage` uses the single fixed model with a two-attempt budget:
an immediate success extracts and returns with one call and no delay; a
non-rate-limit first failure classifies and raises immediately; a rate-limit
first failure waits exactly 2000 ms and retries the same model, after which
a second failure of any kind is classified and raised, while a success
returns the second attempt's extracted text and image — in each retry case
with exactly one 2000 ms delay between exactly two calls. -/
theorem edit_retry_policy :
    (∀ (b : Nat → ImgCall) resp c cs, b 0 = ImgCall.success resp →
      resp.candidates = c :: cs →
      editImage true b = ([.call imageModel],
        .ok (scanParts c.parts).1 (scanParts c.parts).2)) ∧
    (∀ (b : Nat → ImgCall) e, b 0 = ImgCall.failure e → isRateLimitLoose e = false →
      editImage true b = ([.call imageModel], .err (handleGeminiError e))) ∧
    (∀ (b : Nat → ImgCall) e e2, b 0 = ImgCall.failure e → isRateLimitLoose e = true →
      b 1 = ImgCall.failure e2 →
      editImage true b = ([.call imageModel, .wait 2000, .call imageModel],
        .err (handleGeminiError e2))) ∧
    (∀ (b : Nat → ImgCall) e resp c cs, b 0 = ImgCall.failure e →
      isRateLimitLoose e = true → b 1 = ImgCall.success resp → resp.candidates = c :: cs →
      editImage true b = ([.call imageModel, .wait 2000, .call imageModel],
        .ok (scanParts c.parts).1 (scanParts c.parts).2)) := by
  refine ⟨?_, ?_, ?_, ?_⟩
  · intro b resp c cs hb hc
    simp [editImage, editImageLoop, hb, hc]
  · intro b e hb hrl
    simp [editImage, editImageLoop, hb, hrl]
  · intro b e e2 hb hrl hb1
    simp [editImage, editImageLoop, hb, hrl, hb1]
  · intro b e resp c cs hb hrl hb1 hc
    simp [editImage, editImageLoop, hb, hrl, hb1, hc]

/-- C4 witness: a rate-limit failure then a success at a concrete backend
returns the second attempt's extraction after exactly one 2000 ms delay. -/
theorem edit_retry_policy_witness :
    editImage true (fun i => if i = 0 then ImgCall.failure ⟨some "quota", none⟩
        else ImgCall.success ⟨[⟨[⟨some "img", none⟩, ⟨none, some "done"⟩]⟩]⟩) =
      ([.call imageModel, .wait 2000, .call imageModel], .ok (some "img") "done") := by
  have h := edit_retry_policy.2.2.2
    (fun i => if i = 0 then ImgCall.failure ⟨some "quota", none⟩
      else ImgCall.success ⟨[⟨[⟨some "img", none⟩, ⟨none, some "done"⟩]⟩]⟩)
    ⟨some "quota", none⟩ ⟨[⟨[⟨some "img", none⟩, ⟨none, some "done"⟩]⟩]⟩
    ⟨[⟨some "img", none⟩, ⟨none, some "done"⟩]⟩ [] rfl (by decide) rfl rfl
  exact h.trans (by decide)

/-- C5 counterexample: a zero-candidate response makes `editImage` raise with
no retry and no delay, but the surfaced error is classified SAFETY_ERROR
(the internal NO_CANDIDATES message mentions "blocked"), not NO_CANDIDATES. -/
theorem edit_no_candidates_cex :
    editImage true (fun _ => ImgCall.success ⟨[]⟩) =
      ([.call imageModel],
        .err ⟨"The request was blocked by safety filters. Please try a different prompt.",
          .SAFETY_ERROR⟩) ∧
    ErrorCode.SAFETY_ERROR ≠ ErrorCode.NO_CANDIDATES := by decide

/-- C5 amended: a zero-candidate `editImage` response raises an internal
NO_CANDIDATES error without any retry attempt and without any delay, but the
shared classifier re-classifies it, so the error surfaced to the caller is
SAFETY_ERROR (its message matches the "blocked" marker). -/
theorem edit_no_candidates (b : Nat → ImgCall) (resp : ImgResponse)
    (hb : b 0 = ImgCall.success resp) (hc : resp.candidates = []) :
    editImage true b =
      ([.call imageModel],
        .err ⟨"The request was blocked by safety filters. Please try a different prompt.",
          .SAFETY_ERROR⟩) := by
  simp [editImage, editImageLoop, hb, hc, isRL_noCand, handle_noCand]

/-- C5 witness: the zero-candidate response at a concrete backend. -/
theorem edit_no_candidates_witness :
    editImage true (fun _ => ImgCall.success ⟨[]⟩) =
      ([.call imageModel],
        .err ⟨"The request was blocked by safety filters. Please try a different prompt.",
          .SAFETY_ERROR⟩) :=
  edit_no_candidates (fun _ => ImgCall.success ⟨[]⟩) ⟨[]⟩ rfl rfl

/-- C6 counterexample: a first-candidate success with blank text makes
`chatWithGemini` raise immediately (no fallback, no delay) — but the
surfaced error carries code UNKNOWN_ERROR, not EMPTY_RESPONSE. -/
theorem chat_empty_response_cex :
    chatWithGemini true (fun _ => ChatCall.success (some "")) =
      ([.call "gemini-3.1-pro-preview"],
        .err ⟨"The model returned an empty response.", .UNKNOWN_ERROR⟩) ∧
    ErrorCode.UNKNOWN_ERROR ≠ ErrorCode.EMPTY_RESPONSE := by decide

/-- C6 amended: a successful chat response with no textual content raises
immediately, with no fallback to the remaining candidates and no delay, but
the internal EMPTY_RESPONSE classification is lost: the re-classified error
surfaced to the caller is UNKNOWN_ERROR carrying the empty-response message. -/
theorem chat_empty_response (b : Nat → ChatCall) (t : Option String)
    (hb : b 0 = ChatCall.success t) (ht : textFalsy t = true) :
    chatWithGemini true b =
      ([.call "gemini-3.1-pro-preview"],
        .err ⟨"The model returned an empty response.", .UNKNOWN_ERROR⟩) := by
  simp [chatWithGemini, chatModels, modelFallbackLoop, hb, ht, outcomeOf,
    emptyResponse_classification.1, emptyResponse_classification.2]

/-- C6 witness: an absent text field at a concrete backend. -/
theorem chat_empty_response_witness :
    chatWithGemini true (fun _ => ChatCall.success none) =
      ([.call "gemini-3.1-pro-preview"],
        .err ⟨"The model returned an empty response.", .UNKNOWN_ERROR⟩) :=
  chat_empty_response (fun _ => ChatCall.success none) none rfl rfl

/-- C7 counterexample: a failure with status 429 but a message matching none
of the loose patterns is NOT retried by `editImage` (raised immediately,
classified RATE_LIMIT by the full classifier) yet IS retried by
`generateImage` — so the four operations do not share one predicate, and
`generateImage` does check the status code. -/
theorem retry_predicate_cex :
    isRateLimitLoose ⟨some "resource exhausted", some 429⟩ = false ∧
    isRateLimitGen ⟨some "resource exhausted", some 429⟩ = true ∧
    editImage true (fun _ => ImgCall.failure ⟨some "resource exhausted", some 429⟩) =
      ([.call imageModel],
        .err ⟨"Rate limit exceeded. The system is currently busy. Please wait about 30-60 seconds before trying again.",
          .RATE_LIMIT⟩) ∧
    (generateImage true
        (fun i => if i = 0 then ImgCall.failure ⟨some "resource exhausted", some 429⟩
          else ImgCall.success ⟨[⟨[]⟩]⟩)).1 =
      [.call imageModel, .wait 2000, .call imageModel] := by decide

/-- C7 amended: chat, analyzeImage and editImage decide retry / fallback by
exactly the loose message pattern (contains "429", "quota" or "Rate limit");
`generateImage`'s retry predicate additionally accepts a raw status equal to
429, so the four operations do not use one identical predicate. -/
theorem retry_predicate (e : JsError) :
    (isRateLimitGen e = (e.status == some 429 || isRateLimitLoose e)) ∧
    (∀ b : Nat → ChatCall, b 0 = ChatCall.failure e → isRateLimitLoose e = false →
      chatWithGemini true b = ([.call "gemini-3.1-pro-preview"], .err (handleGeminiError e)) ∧
      analyzeImage true b = ([.call "gemini-3-flash-preview"], .err (handleGeminiError e))) ∧
    (∀ bi : Nat → ImgCall, bi 0 = ImgCall.failure e → isRateLimitLoose e = false →
      editImage true bi = ([.call imageModel], .err (handleGeminiError e))) ∧
    (∀ b : Nat → ChatCall, b 0 = ChatCall.failure e → isRateLimitLoose e = true →
      (∃ rest, (chatWithGemini true b).1 =
        .call "gemini-3.1-pro-preview" :: .wait 1000 :: rest) ∧
      (∃ rest, (analyzeImage true b).1 =
        .call "gemini-3-flash-preview" :: .wait 1000 :: rest)) ∧
    (∀ bi : Nat → ImgCall, bi 0 = ImgCall.failure e → isRateLimitLoose e = true →
      ∃ rest, (editImage true bi).1 = .call imageModel :: .wait 2000 :: rest) := by
  have hincl : includes "" "429" = false ∧ includes "" "quota" = false ∧
      includes "" "Rate limit" = false := by decide
  refine ⟨?_, ?_, ?_, ?_, ?_⟩
  · rcases hm : e.message with _ | m
    · simp [isRateLimitGen, isRateLimitLoose, hm, hincl.1, hincl.2.1, hincl.2.2]
    · cases hmm : m == ""
      · simp [isRateLimitGen, isRateLimitLoose, hm, hmm]
      · have hme : m = "" := eq_of_beq hmm
        subst hme
        simp [isRateLimitGen, isRateLimitLoose, hm, hincl.1, hincl.2.1, hincl.2.2]
  · intro b hb hrl
    constructor
    · simp [chatWithGemini, chatModels, modelFallbackLoop, hb, hrl, outcomeOf]
    · simp [analyzeImage, analyzeModels, modelFallbackLoop, hb, hrl, outcomeOf]
  · intro bi hb hrl
    simp [editImage, editImageLoop, hb, hrl]
  · intro b hb hrl
    constructor
    · refine ⟨(modelFallbackLoop true b "The model returned an empty response."
        ["gemini-3-flash-preview", "gemini-flash-lite-latest"] 1 (some e)).1, ?_⟩
      simp [chatWithGemini, chatModels, modelFallbackLoop, hb, hrl, outcomeOf]
    · refine ⟨(modelFallbackLoop true b "The model returned an empty analysis."
        ["gemini-2.5-flash-image"] 1 (some e)).1, ?_⟩
      simp [analyzeImage, analyzeModels, modelFallbackLoop, hb, hrl, outcomeOf]
  · intro bi hb hrl
    refine ⟨(editImageLoop true bi 1 1).1, ?_⟩
    simp [editImage, editImageLoop, hb, hrl]

/-- C7 witness: a network-style failure (loose-rejected) raises immediately
on the first chat candidate and the first analyze candidate. -/
theorem retry_predicate_witness :
    chatWithGemini true (fun _ => ChatCall.failure ⟨some "network down", none⟩) =
      ([.call "gemini-3.1-pro-preview"],
        .err ⟨"Network error. Please check your internet connection.", .NETWORK_ERROR⟩) ∧
    analyzeImage true (fun _ => ChatCall.failure ⟨some "network down", none⟩) =
      ([.call "gemini-3-flash-preview"],
        .err ⟨"Network error. Please check your internet connection.", .NETWORK_ERROR⟩) := by
  have h := (retry_predicate ⟨some "network down", none⟩).2.1
    (fun _ => ChatCall.failure ⟨some "network down", none⟩) rfl (by decide)
  exact ⟨h.1.trans (by decide), h.2.trans (by decide)⟩

/-- C8 counterexample: with the credential absent every operation fails with
zero backend calls, but the raised error is `UNKNOWN_ERROR` — a member of
the runtime ClassifiedError taxonomy, not an error distinct from it. -/
theorem missing_key_cex :
    chatWithGemini false (fun _ => ChatCall.success (some "hi")) =
      ([], .err ⟨"GEMINI_API_KEY is not set", .UNKNOWN_ERROR⟩) ∧
    analyzeImage false (fun _ => ChatCall.success (some "hi")) =
      ([], .err ⟨"GEMINI_API_KEY is not set", .UNKNOWN_ERROR⟩) ∧
    editImage false (fun _ => ImgCall.success ⟨[⟨[]⟩]⟩) =
      ([], .err ⟨"GEMINI_API_KEY is not set", .UNKNOWN_ERROR⟩) ∧
    generateImage false (fun _ => ImgCall.success ⟨[⟨[]⟩]⟩) =
      ([], .err ⟨"GEMINI_API_KEY is not set", .UNKNOWN_ERROR⟩) ∧
    ErrorCode.UNKNOWN_ERROR ∈ [ErrorCode.AUTH_ERROR, ErrorCode.SAFETY_ERROR,
      ErrorCode.RATE_LIMIT, ErrorCode.NETWORK_ERROR, ErrorCode.EMPTY_RESPONSE,
      ErrorCode.NO_CANDIDATES, ErrorCode.UNKNOWN_ERROR] := by decide

/-- C8 amended: when the credential is absent, each of the four operations
fails immediately and deterministically with zero backend calls and zero
delays, but the missing-credential failure is funneled through the shared
classifier and surfaces as a runtime ClassifiedError of kind UNKNOWN_ERROR
carrying the message "GEMINI_API_KEY is not set" — not as an initialization
error distinct from the taxonomy. -/
theorem missing_key_behaviour (b : Nat → ChatCall) (bi : Nat → ImgCall) :
    chatWithGemini false b = ([], .err ⟨"GEMINI_API_KEY is not set", .UNKNOWN_ERROR⟩) ∧
    analyzeImage false b = ([], .err ⟨"GEMINI_API_KEY is not set", .UNKNOWN_ERROR⟩) ∧
    editImage false bi = ([], .err ⟨"GEMINI_API_KEY is not set", .UNKNOWN_ERROR⟩) ∧
    generateImage false bi = ([], .err ⟨"GEMINI_API_KEY is not set", .UNKNOWN_ERROR⟩) := by
  refine ⟨?_, ?_, ?_, ?_⟩
  · simp [chatWithGemini, chatModels, modelFallbackLoop, isRL_missingKey,
      handle_missingKey, outcomeOf]
  · simp [analyzeImage, analyzeModels, modelFallbackLoop, isRL_missingKey,
      handle_missingKey, outcomeOf]
  · simp [editImage, editImageLoop, isRL_missingKey, handle_missingKey]
  · simp [generateImage, handle_missingKey]

/-- C9: every operation yields exactly one terminal outcome — a success
value or a raised classified error — for every credential state and every
sequence of backend outcomes: the chat and analyze candidate loops and the
editImage attempt loop provably never fall through, and each operation's
outcome is a success or an error. -/
theorem single_terminal_outcome (hk : Bool) (b : Nat → ChatCall) (bi : Nat → ImgCall) :
    (∀ le, (modelFallbackLoop hk b "The model returned an empty response."
      chatModels 0 none).2 ≠ LoopResult.fellThrough le) ∧
    (∀ le, (modelFallbackLoop hk b "The model returned an empty analysis."
      analyzeModels 0 none).2 ≠ LoopResult.fellThrough le) ∧
    (editImageLoop hk bi 0 2).2 ≠ ImgOutcome.fellThrough ∧
    ((∃ t, (chatWithGemini hk b).2 = .ok t) ∨ (∃ ge, (chatWithGemini hk b).2 = .err ge)) ∧
    ((∃ t, (analyzeImage hk b).2 = .ok t) ∨ (∃ ge, (analyzeImage hk b).2 = .err ge)) ∧
    ((∃ im t, (editImage hk bi).2 = .ok im t) ∨ (∃ ge, (editImage hk bi).2 = .err ge)) ∧
    ((∃ im t, (generateImage hk bi).2 = .ok im t) ∨
      (∃ ge, (generateImage hk bi).2 = .err ge)) := by
  refine ⟨?_, ?_, ?_, ?_, ?_, ?_, ?_⟩
  · intro le
    exact loop_no_fellThrough hk b _ chatModels (by simp [chatModels]) 0 none le
  · intro le
    exact loop_no_fellThrough hk b _ analyzeModels (by simp [analyzeModels]) 0 none le
  · exact editLoop_no_fellThrough hk bi 1 0
  · cases h : (chatWithGemini hk b).2 with
    | ok t => exact Or.inl ⟨t, rfl⟩
    | err ge => exact Or.inr ⟨ge, rfl⟩
  · cases h : (analyzeImage hk b).2 with
    | ok t => exact Or.inl ⟨t, rfl⟩
    | err ge => exact Or.inr ⟨ge, rfl⟩
  · cases h : (editImage hk bi).2 with
    | ok im t => exact Or.inl ⟨im, t, rfl⟩
    | err ge => exact Or.inr ⟨ge, rfl⟩
    | fellThrough =>
      have hne := editLoop_no_fellThrough hk bi 1 0
      simp only [editImage] at h
      exact absurd h hne
  · cases h : (generateImage hk bi).2 with
    | ok im t => exact Or.inl ⟨im, t, rfl⟩
    | err ge => exact Or.inr ⟨ge, rfl⟩
    | fellThrough => exact absurd h (gen_no_fellThrough hk bi)

/-- C10: on a successful `editImage` / `generateImage` response only the
first candidate's parts are scanned; the returned text is the in-order
concatenation of the text fields of parts carrying no inline payload, and
the returned image is the data of the last part carrying an inline payload
(none when no part does). -/
theorem content_part_extraction :
    (∀ ps, scanParts ps = ((ps.filterMap Part.inlineData).getLast?,
      String.join (ps.filterMap fun p => if p.inlineData.isSome then none else p.text))) ∧
    (∀ (b : Nat → ImgCall) resp c cs, b 0 = ImgCall.success resp →
      resp.candidates = c :: cs →
      editImage true b = ([.call imageModel],
        .ok (c.parts.filterMap Part.inlineData).getLast?
          (String.join (c.parts.filterMap fun p =>
            if p.inlineData.isSome then none else p.text))) ∧
      generateImage true b = ([.call imageModel],
        .ok (c.parts.filterMap Part.inlineData).getLast?
          (String.join (c.parts.filterMap fun p =>
            if p.inlineData.isSome then none else p.text)))) := by
  refine ⟨scanParts_spec, ?_⟩
  intro b resp c cs hb hc
  constructor
  · simp [editImage, editImageLoop, hb, hc, scanParts_spec]
  · simp [generateImage, genRetry_success b imageModel resp 5 0 hb, hc, scanParts_spec]

/-- C10 witness: a first candidate whose parts are (image+text, text, image,
text) yields the last image and the concatenation of the inline-free texts;
the second candidate is ignored. -/
theorem content_part_extraction_witness :
    editImage true (fun _ => ImgCall.success
        ⟨[⟨[⟨some "a", some "x"⟩, ⟨none, some "t1"⟩, ⟨some "b", none⟩, ⟨none, some "t2"⟩]⟩,
          ⟨[⟨none, some "ZZZ"⟩]⟩]⟩) =
      ([.call imageModel], .ok (some "b") "t1t2") := by
  have h := (content_part_extraction.2
    (fun _ => ImgCall.success
      ⟨[⟨[⟨some "a", some "x"⟩, ⟨none, some "t1"⟩, ⟨some "b", none⟩, ⟨none, some "t2"⟩]⟩,
        ⟨[⟨none, some "ZZZ"⟩]⟩]⟩)
    ⟨[⟨[⟨some "a", some "x"⟩, ⟨none, some "t1"⟩, ⟨some "b", none⟩, ⟨none, some "t2"⟩]⟩,
      ⟨[⟨none, some "ZZZ"⟩]⟩]⟩
    ⟨[⟨some "a", some "x"⟩, ⟨none, some "t1"⟩, ⟨some "b", none⟩, ⟨none, some "t2"⟩]⟩
    [⟨[⟨none, some "ZZZ"⟩]⟩] rfl rfl).1
  exact h.trans (by decide)

end Mova
